import Mathlib

/-! cloudwatch_logger : the `LogNode` of `log_node.cpp`

A shallow embedding of `Aws::CloudWatchLogs::Utils::LogNode`
(`cloudwatch_logger/src/log_node.cpp`, `cloudwatch_logger/include/cloudwatch_logger/log_node.h`).

* C++ `std::string` values are Lean `String`s; a byte written to a stream is the `Char`
  with that code.
* Calls that leave the node (the `LogService`, the base class `Service`, the AWS logging
  macro, `std::cout`) are recorded, in program order, in a trace of `Event`s. What a
  collaborator answers is given by an `Env`, as a function of the trace so far.
* Dereferencing a null `std::shared_ptr` is the fault `Fault.nullDereference`.
-/

namespace CloudWatchLogger

/-! ## Machine arithmetic -/

/-- Conversion of an unsigned value to `int8_t`: reduction modulo `2 ^ 8` into `-128 .. 127`.
This is the conversion at the call `ShouldSendToCloudWatchLogs(log_msg->level)`, whose
parameter is `const int8_t`. -/
def toInt8 (n : Nat) : Int :=
  if n % 2 ^ 8 < 2 ^ 7 then ((n % 2 ^ 8 : Nat) : Int) else ((n % 2 ^ 8 : Nat) : Int) - 2 ^ 8

/-- The natural number nearest to `a / b`, a tie going to the even neighbour (the IEEE-754
default rounding, also used by the decimal conversion of the C library). -/
def roundHalfEven (a b : Nat) : Nat :=
  let q := a / b
  let r := a % b
  if 2 * r < b then q
  else if b < 2 * r then q + 1
  else if q % 2 = 0 then q
  else q + 1

/-- Fuelled search for the binary exponent of `n`. -/
def binaryExponentFrom : Nat → Nat → Nat
  | 0, _ => 0
  | fuel + 1, n => if 2 ≤ n then binaryExponentFrom fuel (n / 2) + 1 else 0

/-- The binary exponent of `n > 0`: the `e` with `2 ^ e ≤ n < 2 ^ (e + 1)`. -/
def binaryExponent (n : Nat) : Nat :=
  binaryExponentFrom n n

/-- The `double` nearest to a 64-bit integer magnitude (`static_cast<double>` of the
nanosecond count): exact below `2 ^ 53`, rounded to 53 significant bits above. The result is
again an integer. -/
def int64ToDouble (n : Nat) : Nat :=
  if n < 2 ^ 53 then n
  else
    let e := binaryExponent n - 52
    roundHalfEven n (2 ^ e) * 2 ^ e

/-- The `double` quotient `a / b` of two positive integer-valued doubles, as a fraction
`(num, den)` whose denominator is a power of two: the exact quotient rounded to 53
significant bits. (Exponent overflow and subnormals cannot occur for the operands of
`FormatLogs` and are not modelled.) -/
def divDouble (a b : Nat) : Nat × Nat :=
  let la := binaryExponent a
  let lb := binaryExponent b
  -- the binary exponent of a / b is la - lb when 2 ^ (la - lb) ≤ a / b, and la - lb - 1 otherwise
  let s : Int := 52 + (lb : Int) - (la : Int) + (if b * 2 ^ la ≤ a * 2 ^ lb then 0 else 1)
  if 0 ≤ s then (roundHalfEven (a * 2 ^ s.toNat) b, 2 ^ s.toNat)
  else (roundHalfEven a (b * 2 ^ (-s).toNat) * 2 ^ (-s).toNat, 1)

/-! ## Stream insertion of a `double` (`operator<<` with the default precision 6, no
format flags: the conversion `%g`) -/

/-- Upward search for the decimal exponent of `num / den ≥ 1`: the greatest `x` with
`den * 10 ^ x ≤ num`. -/
def decimalExponentUp (num den : Nat) : Nat → Nat → Nat
  | 0, x => x
  | fuel + 1, x => if den * 10 ^ (x + 1) ≤ num then decimalExponentUp num den fuel (x + 1) else x

/-- Downward search for the decimal exponent of `num / den < 1`: the least `k` with
`den ≤ num * 10 ^ k`. -/
def decimalExponentDown (num den : Nat) : Nat → Nat → Nat
  | 0, k => k
  | fuel + 1, k => if den ≤ num * 10 ^ k then k else decimalExponentDown num den fuel (k + 1)

/-- The decimal exponent `X` of the positive value `num / den`: `10 ^ X ≤ num / den < 10 ^ (X + 1)`. -/
def decimalExponent (num den : Nat) : Int :=
  if den ≤ num then (decimalExponentUp num den (binaryExponent num + 1) 0 : Nat)
  else -((decimalExponentDown num den (binaryExponent den + 2) 0 : Nat) : Int)

/-- The positive value `num / den` rounded to six significant decimal digits: the digits as
a number `100000 ≤ l ≤ 999999` and the exponent `X` of the leading digit. -/
def sixDigits (num den : Nat) : Nat × Int :=
  let x := decimalExponent num den
  let l :=
    if 5 ≤ x then roundHalfEven num (den * 10 ^ (x - 5).toNat)
    else roundHalfEven (num * 10 ^ (5 - x).toNat) den
  if l = 1000000 then (100000, x + 1) else (l, x)

/-- Removal of the trailing zeros of a fraction (`%g` without the `#` flag). -/
def stripTrailingZeros (ds : List Char) : List Char :=
  (ds.reverse.dropWhile (fun c => c == '0')).reverse

/-- An integer part and a fraction joined by the decimal point, which is left out when the
fraction is empty. -/
def joinFraction (intPart frac : List Char) : String :=
  if frac.isEmpty then String.mk intPart else String.mk (intPart ++ '.' :: frac)

/-- The exponent field of the scientific style: a sign and at least two digits. -/
def exponentField (x : Int) : String :=
  (if x < 0 then "-" else "+") ++ (if x.natAbs < 10 then "0" else "") ++ Nat.repr x.natAbs

/-- The text of the positive double `num / den` under `%g` with precision 6: scientific
style when the exponent `X` is below `-4` or at least `6`, fixed style with `5 - X`
decimals otherwise, trailing zeros removed in both. -/
def showPositiveDouble (num den : Nat) : String :=
  let l := (sixDigits num den).1
  let x := (sixDigits num den).2
  let ds := Nat.toDigits 10 l
  if x < -4 ∨ 6 ≤ x then
    joinFraction (ds.take 1) (stripTrailingZeros (ds.drop 1)) ++ "e" ++ exponentField x
  else if 0 ≤ x then
    joinFraction (ds.take (x.toNat + 1)) (stripTrailingZeros (ds.drop (x.toNat + 1)))
  else
    joinFraction ['0'] (stripTrailingZeros (List.replicate ((-x).toNat - 1) '0' ++ ds))

/-! ## The inbound message and the collaborators -/

/-- The message field `stamp` (`builtin_interfaces/msg/Time`): `int32 sec`, `uint32 nanosec`. -/
structure Time where
  sec : Int
  nanosec : Nat
deriving DecidableEq, Repr

/-- The inbound record `rcl_interfaces::msg::Log`. The message type is declared by ROS 2
(`rcl_interfaces/msg/Log.msg`: `builtin_interfaces/Time stamp`, `uint8 level`, `string name`,
`string msg`, `string file`, `string function`, `uint32 line`), not by this repository.
`level` is an unsigned 8-bit field: a value `0 .. 255`. -/
structure Log where
  stamp : Time
  level : Nat
  name : String
  msg : String
  file : String
  function : String
  line : Nat
deriving DecidableEq, Repr

/-- The record is well-formed for its C++ type: every integer field is within the range of
its machine type. -/
def Log.WellFormed (log_msg : Log) : Prop :=
  -(2 : Int) ^ 31 ≤ log_msg.stamp.sec ∧ log_msg.stamp.sec < 2 ^ 31 ∧
  log_msg.stamp.nanosec < 2 ^ 32 ∧ log_msg.level < 2 ^ 8 ∧ log_msg.line < 2 ^ 32

instance (log_msg : Log) : Decidable log_msg.WellFormed := by
  unfold Log.WellFormed; infer_instance

/-- The severity constants `rcl_interfaces::msg::Log::DEBUG .. FATAL` that label the cases
of the `switch` in `FormatLogs`. They are declared with the message type, outside this
repository, and are a parameter of the model. -/
structure LogLevels where
  DEBUG : Nat
  INFO : Nat
  WARN : Nat
  ERROR : Nat
  FATAL : Nat
deriving DecidableEq, Repr

/-- The five constants are pairwise different, as the case labels of one `switch` must be. -/
def LogLevels.Distinct (c : LogLevels) : Prop :=
  [c.DEBUG, c.INFO, c.WARN, c.ERROR, c.FATAL].Nodup

instance (c : LogLevels) : Decidable c.Distinct := by
  unfold LogLevels.Distinct; infer_instance

/-- The level is one of the five named constants. -/
def LogLevels.Named (c : LogLevels) (level : Nat) : Prop :=
  level ∈ [c.DEBUG, c.INFO, c.WARN, c.ERROR, c.FATAL]

instance (c : LogLevels) (level : Nat) : Decidable (c.Named level) := by
  unfold LogLevels.Named; infer_instance

/-- A `Aws::CloudWatchLogs::LogService` object, known to the node only through the
`std::shared_ptr` it holds; `id` tells one object from another. -/
structure LogService where
  id : Nat
deriving DecidableEq, Repr

/-- A `LogServiceFactory`: `CreateLogService` returns a shared pointer, `none` when null.
The three AWS configuration types are declared by the AWS SDK and only passed through. -/
structure LogServiceFactory (Config SdkOptions CwOptions : Type) where
  CreateLogService : String → String → Config → SdkOptions → CwOptions → Option LogService

/-- One call that leaves the node. -/
inductive Event where
  | CreateLogService (log_group log_stream : String)
  | isConnected (s : LogService)
  | logServiceStart (s : LogService)
  | logServiceShutdown (s : LogService)
  | batchData (s : LogService) (message : String)
  | publishBatchedData (s : LogService)
  | serviceStart
  | serviceShutdown
  | awsLogError (tag text : String)
  | cout (text : String)
deriving DecidableEq, Repr

/-- What the collaborators answer, each as a function of the calls made so far:
`LogService::isConnected`, `LogService::start`, `LogService::shutdown` and the base class
`Service::start`, `Service::shutdown`. -/
structure Env where
  isConnected : LogService → List Event → Bool
  logServiceStart : LogService → List Event → Bool
  logServiceShutdown : LogService → List Event → Bool
  serviceStart : List Event → Bool
  serviceShutdown : List Event → Bool

/-- The fault of a call that does not return normally. -/
inductive Fault where
  | nullDereference
deriving DecidableEq, Repr

/-- The response of `std_srvs::srv::Trigger`. -/
structure Response where
  success : Bool
  message : String
deriving DecidableEq, Repr

/-! ## The node -/

/-- The data members of `LogNode` (`log_node.h`): the shared pointer `log_service_` (`none`
is `nullptr`), the `int8_t` threshold and the set of ignored node names. -/
structure LogNode where
  log_service_ : Option LogService
  min_log_severity_ : Int
  ignore_nodes_ : Finset String
deriving DecidableEq

/-- What a member function leaves behind: its return value, the node and the trace. -/
structure Outcome (α : Type) where
  value : α
  node : LogNode
  trace : List Event

/-- The constructor `LogNode::LogNode(min_log_severity, ignore_nodes)`. -/
def newLogNode (min_log_severity : Int) (ignore_nodes : Finset String) : LogNode :=
  { log_service_ := none
    min_log_severity_ := min_log_severity
    ignore_nodes_ := ignore_nodes }

/-- The member `std::unordered_set::count`: `1` for a member, `0` otherwise. -/
def count (s : Finset String) (key : String) : Nat :=
  if key ∈ s then 1 else 0

/-- The lines handed to `batchData`, in order. -/
def submittedLines : List Event → List String
  | [] => []
  | Event.batchData _ message :: rest => message :: submittedLines rest
  | _ :: rest => submittedLines rest

/-- `LogNode::Initialize`: the service pointer becomes what the factory returns. -/
def LogNode.Initialize {Config SdkOptions CwOptions : Type} (node : LogNode)
    (log_group log_stream : String) (config : Config) (sdk_options : SdkOptions)
    (cloudwatch_options : CwOptions)
    (factory : Option (LogServiceFactory Config SdkOptions CwOptions))
    (trace : List Event) : Except Fault (Outcome Unit) :=
  match factory with
  | none => Except.error Fault.nullDereference
  | some f =>
    Except.ok
      { value := ()
        node := { node with
          log_service_ := f.CreateLogService log_group log_stream config sdk_options cloudwatch_options }
        trace := trace ++ [Event.CreateLogService log_group log_stream] }

/-- `LogNode::checkIfOnline`: the value is the returned `bool` with the response as written. -/
def LogNode.checkIfOnline (env : Env) (node : LogNode) (response : Response)
    (trace : List Event) : Outcome (Bool × Response) :=
  match node.log_service_ with
  | none =>
    let response := { response with success := false }
    let response := { response with message := "The LogService is not initialized" }
    { value := (true, response), node := node, trace := trace }
  | some s =>
    let response := { response with success := env.isConnected s trace }
    let response := { response with
      message := if response.success then "The LogService is connected"
                 else "The LogService is not connected" }
    { value := (true, response), node := node, trace := trace ++ [Event.isConnected s] }

/-- `LogNode::start`. `is_started &= e` evaluates `e` whatever `is_started` holds. -/
def LogNode.start (env : Env) (node : LogNode) (trace : List Event) : Outcome Bool :=
  let is_started := true
  let step :=
    match node.log_service_ with
    | some s => (is_started && env.logServiceStart s trace, trace ++ [Event.logServiceStart s])
    | none => (is_started, trace)
  let is_started := step.1 && env.serviceStart step.2
  { value := is_started, node := node, trace := step.2 ++ [Event.serviceStart] }

/-- `LogNode::shutdown`. -/
def LogNode.shutdown (env : Env) (node : LogNode) (trace : List Event) : Outcome Bool :=
  let is_shutdown := env.serviceShutdown trace
  let trace := trace ++ [Event.serviceShutdown]
  match node.log_service_ with
  | some s =>
    { value := is_shutdown && env.logServiceShutdown s trace
      node := node
      trace := trace ++ [Event.logServiceShutdown s] }
  | none => { value := is_shutdown, node := node, trace := trace }

/-- `LogNode::ShouldSendToCloudWatchLogs(const int8_t log_severity_level)`. -/
def LogNode.ShouldSendToCloudWatchLogs (node : LogNode) (log_severity_level : Int) : Bool :=
  decide (log_severity_level ≥ node.min_log_severity_)

/-- The text inserted for the time stamp: the duration `seconds(sec) + nanoseconds(nanosec)`
is a 64-bit count of nanoseconds, `duration_cast<duration<double>>` converts the count to
`double` and divides by `1e9`, and `operator<<` writes the quotient. -/
def insertStamp (stamp : Time) : String :=
  let nanoseconds : Int := stamp.sec * 1000000000 + (stamp.nanosec : Int)
  if nanoseconds = 0 then "0"
  else
    let quotient := divDouble (int64ToDouble nanoseconds.natAbs) 1000000000
    (if nanoseconds < 0 then "-" else "") ++ showPositiveDouble quotient.1 quotient.2

/-- The text inserted by `ss << log_msg->level`: the field is a `uint8_t`, an
`unsigned char`, for which `operator<<` writes the one character with that code and not a
numeral. -/
def insertLevel (level : Nat) : String :=
  String.singleton (Char.ofNat level)

/-- `LogNode::FormatLogs`: the returned string, and the trace with the line written to
`std::cout`. -/
def LogNode.FormatLogs (c : LogLevels) (_node : LogNode) (log_msg : Log)
    (trace : List Event) : String × List Event :=
  let ss := insertStamp log_msg.stamp ++ " "
  let ss :=
    if log_msg.level = c.FATAL then ss ++ "FATAL "
    else if log_msg.level = c.ERROR then ss ++ "ERROR "
    else if log_msg.level = c.WARN then ss ++ "WARN "
    else if log_msg.level = c.DEBUG then ss ++ "DEBUG "
    else if log_msg.level = c.INFO then ss ++ "INFO "
    else ss ++ insertLevel log_msg.level ++ " "
  let ss := ss ++ "[node name: " ++ log_msg.name ++ "] "
  let ss := ss ++ log_msg.msg ++ "\n"
  (ss, trace ++ [Event.cout (log_msg.msg ++ "\n")])

/-- `LogNode::RecordLogs`. -/
def LogNode.RecordLogs (c : LogLevels) (node : LogNode) (log_msg : Log)
    (trace : List Event) : Outcome Unit :=
  if 0 = count node.ignore_nodes_ log_msg.name then
    match node.log_service_ with
    | none =>
      { value := ()
        node := node
        trace := trace ++ [Event.awsLogError "RecordLogs"
          "Cannot publish CloudWatch logs with NULL Aws::CloudWatchLogs::LogService instance."] }
    | some s =>
      if node.ShouldSendToCloudWatchLogs (toInt8 log_msg.level) then
        let formatted := node.FormatLogs c log_msg trace
        { value := (), node := node, trace := formatted.2 ++ [Event.batchData s formatted.1] }
      else { value := (), node := node, trace := trace }
  else { value := (), node := node, trace := trace }

/-- `LogNode::TriggerLogPublisher`: `log_service_->publishBatchedData()` with no test of the
pointer. -/
def LogNode.TriggerLogPublisher (node : LogNode) (trace : List Event) :
    Except Fault (Outcome Unit) :=
  match node.log_service_ with
  | none => Except.error Fault.nullDereference
  | some s =>
    Except.ok { value := (), node := node, trace := trace ++ [Event.publishBatchedData s] }

/-! ## Sample values -/

/-- The constants with the values `rcl_interfaces/msg/Log.msg` gives them. -/
def rclLevels : LogLevels :=
  { DEBUG := 10, INFO := 20, WARN := 30, ERROR := 40, FATAL := 50 }

/-- Modelled from the spec: the integer scale on which the end-to-end scenario names its
levels, `DEBUG(0)`, `WARN(2)`, `ERROR(3)`, with `INFO` and `FATAL` placed by the order
`FATAL > ERROR > WARN > INFO > DEBUG`. -/
def specLevels : LogLevels :=
  { DEBUG := 0, INFO := 1, WARN := 2, ERROR := 3, FATAL := 4 }

/-- A service object. -/
def sampleService : LogService :=
  { id := 0 }

/-- A node with threshold `2`, the ignored set `{"noisy_node"}` and a service. -/
def sampleNode : LogNode :=
  { log_service_ := some sampleService, min_log_severity_ := 2, ignore_nodes_ := {"noisy_node"} }

/-- A record of source `name` and severity `level`, stamped `(10 s, 0 ns)`, with the
message `"boom"`. -/
def sampleLog (name : String) (level : Nat) : Log :=
  { stamp := { sec := 10, nanosec := 0 }, level := level, name := name, msg := "boom",
    file := "", function := "", line := 0 }

/-- Collaborators whose every call succeeds. -/
def sampleEnv : Env :=
  { isConnected := fun _ _ => true
    logServiceStart := fun _ _ => true
    logServiceShutdown := fun _ _ => true
    serviceStart := fun _ => true
    serviceShutdown := fun _ => true }

/-- A factory that hands out `sampleService`. -/
def sampleFactory : LogServiceFactory Unit Unit Unit :=
  { CreateLogService := fun _ _ _ _ _ => some sampleService }

/-- The end-to-end scenario: construct the node, `Initialize` it, record one message. -/
def constructInitializeRecord {Config SdkOptions CwOptions : Type} (c : LogLevels)
    (min_log_severity : Int) (ignore_nodes : Finset String) (log_group log_stream : String)
    (config : Config) (sdk_options : SdkOptions) (cloudwatch_options : CwOptions)
    (factory : Option (LogServiceFactory Config SdkOptions CwOptions)) (log_msg : Log) :
    Except Fault (Outcome Unit) :=
  match (newLogNode min_log_severity ignore_nodes).Initialize log_group log_stream config
      sdk_options cloudwatch_options factory [] with
  | Except.error fault => Except.error fault
  | Except.ok initialized =>
    Except.ok (initialized.node.RecordLogs c log_msg initialized.trace)

/-! ## Sequences of calls -/

/-- One call of a public member function of `LogNode`, with its arguments. -/
inductive Operation (Config SdkOptions CwOptions : Type) where
  | Initialize (log_group log_stream : String) (config : Config) (sdk_options : SdkOptions)
      (cloudwatch_options : CwOptions)
      (factory : Option (LogServiceFactory Config SdkOptions CwOptions))
  | checkIfOnline (response : Response)
  | start
  | shutdown
  | RecordLogs (log_msg : Log)
  | TriggerLogPublisher

/-- The call is a call of `Initialize`. -/
def Operation.isInitialize {Config SdkOptions CwOptions : Type} :
    Operation Config SdkOptions CwOptions → Bool
  | Operation.Initialize _ _ _ _ _ _ => true
  | _ => false

/-- The call is a call of `TriggerLogPublisher`. -/
def Operation.isTrigger {Config SdkOptions CwOptions : Type} :
    Operation Config SdkOptions CwOptions → Bool
  | Operation.TriggerLogPublisher => true
  | _ => false

/-- The node and the trace after one call, or the fault of the call. -/
def Operation.apply {Config SdkOptions CwOptions : Type} (env : Env) (c : LogLevels)
    (op : Operation Config SdkOptions CwOptions) (node : LogNode) (trace : List Event) :
    Except Fault (LogNode × List Event) :=
  match op with
  | Operation.Initialize log_group log_stream config sdk_options cloudwatch_options factory =>
    match node.Initialize log_group log_stream config sdk_options cloudwatch_options factory
        trace with
    | Except.error fault => Except.error fault
    | Except.ok out => Except.ok (out.node, out.trace)
  | Operation.checkIfOnline response =>
    Except.ok ((node.checkIfOnline env response trace).node,
      (node.checkIfOnline env response trace).trace)
  | Operation.start => Except.ok ((node.start env trace).node, (node.start env trace).trace)
  | Operation.shutdown =>
    Except.ok ((node.shutdown env trace).node, (node.shutdown env trace).trace)
  | Operation.RecordLogs log_msg =>
    Except.ok ((node.RecordLogs c log_msg trace).node, (node.RecordLogs c log_msg trace).trace)
  | Operation.TriggerLogPublisher =>
    match node.TriggerLogPublisher trace with
    | Except.error fault => Except.error fault
    | Except.ok out => Except.ok (out.node, out.trace)

/-- The node and the trace after a sequence of calls made one after the other; a fault ends
the sequence. -/
def applyAll {Config SdkOptions CwOptions : Type} (env : Env) (c : LogLevels) :
    List (Operation Config SdkOptions CwOptions) → LogNode → List Event →
      Except Fault (LogNode × List Event)
  | [], node, trace => Except.ok (node, trace)
  | op :: rest, node, trace =>
    match op.apply env c node trace with
    | Except.error fault => Except.error fault
    | Except.ok next => applyAll env c rest next.1 next.2

/-- The sequence calls `TriggerLogPublisher` only while a service is held and `Initialize`
only with a factory: `present` tells whether a service is held before the first call, and a
call of `Initialize` holds one afterwards exactly when its factory returns one. -/
def Guarded {Config SdkOptions CwOptions : Type} :
    List (Operation Config SdkOptions CwOptions) → Bool → Prop
  | [], _ => True
  | Operation.Initialize log_group log_stream config sdk_options cloudwatch_options
      (some factory) :: rest, _ =>
    Guarded rest
      (factory.CreateLogService log_group log_stream config sdk_options
        cloudwatch_options).isSome
  | Operation.Initialize _ _ _ _ _ none :: _, _ => False
  | Operation.TriggerLogPublisher :: rest, present => present = true ∧ Guarded rest present
  | Operation.checkIfOnline _ :: rest, present => Guarded rest present
  | Operation.start :: rest, present => Guarded rest present
  | Operation.shutdown :: rest, present => Guarded rest present
  | Operation.RecordLogs _ :: rest, present => Guarded rest present

/-- A sequence of calls that runs through every public member function, with `Initialize`
in the middle. -/
def sampleOperations : List (Operation Unit Unit Unit) :=
  [Operation.checkIfOnline { success := true, message := "" },
   Operation.RecordLogs (sampleLog "a" 3),
   Operation.Initialize "group" "stream" () () () (some sampleFactory),
   Operation.start,
   Operation.RecordLogs (sampleLog "a" 3),
   Operation.TriggerLogPublisher,
   Operation.shutdown,
   Operation.RecordLogs (sampleLog "noisy_node" 3),
   Operation.checkIfOnline { success := false, message := "" }]

/-- A sequence of calls without `Initialize`. -/
def sampleCalls : List (Operation Unit Unit Unit) :=
  [Operation.start,
   Operation.RecordLogs (sampleLog "a" 3),
   Operation.TriggerLogPublisher,
   Operation.shutdown,
   Operation.checkIfOnline { success := false, message := "" }]

/-! ## Record ingestion -/

/-- C1: a record whose source name is in the ignored set leaves the node and the trace as
they were, so nothing is submitted, nothing is formatted or written to the console and no
error is logged, whatever the service pointer, the threshold and the severity. -/
theorem recordLogs_ignored_source_is_silent (c : LogLevels) (node : LogNode) (log_msg : Log)
    (trace : List Event) (h : log_msg.name ∈ node.ignore_nodes_) :
    node.RecordLogs c log_msg trace = { value := (), node := node, trace := trace } := by
  simp [LogNode.RecordLogs, count, h]

/-- C1 at the greatest severity the field holds, `255`, on a node with a service. -/
theorem recordLogs_ignored_source_is_silent_witness :
    (sampleLog "noisy_node" 255).name ∈ sampleNode.ignore_nodes_ ∧
    sampleNode.RecordLogs rclLevels (sampleLog "noisy_node" 255) [] =
      { value := (), node := sampleNode, trace := [] } :=
  ⟨by decide, recordLogs_ignored_source_is_silent rclLevels sampleNode
    (sampleLog "noisy_node" 255) [] (by decide)⟩

/-- C2: the code at the failing input. With a service present, threshold `2` and a source
that is not ignored, a record of severity `200` is not submitted although `200 ≥ 2`: the
`int8_t` parameter of the severity check receives `200 - 256 = -56`. -/
theorem recordLogs_drops_level_200 (c : LogLevels) (trace : List Event) :
    (sampleLog "a" 200).WellFormed ∧
    (sampleLog "a" 200).name ∉ sampleNode.ignore_nodes_ ∧
    ((sampleLog "a" 200).level : Int) ≥ sampleNode.min_log_severity_ ∧
    toInt8 (sampleLog "a" 200).level = -56 ∧
    sampleNode.RecordLogs c (sampleLog "a" 200) trace =
      { value := (), node := sampleNode, trace := trace } := by
  refine ⟨by decide, by decide, by decide, by decide, ?_⟩
  have h : (sampleLog "a" 200).name ∉ sampleNode.ignore_nodes_ := by decide
  have h8 : toInt8 (sampleLog "a" 200).level = -56 := by decide
  simp [LogNode.RecordLogs, count, h, h8, LogNode.ShouldSendToCloudWatchLogs, sampleNode]

/-- C3: with no service and a source that is not ignored, the one effect of `RecordLogs`
is the error logged through `AWS_LOG_ERROR`: nothing is submitted or written to the
console and the node is unchanged. The severity plays no part, so the test of the pointer
comes before the severity check. -/
theorem recordLogs_without_service_logs_error (c : LogLevels) (min_log_severity : Int)
    (ignore_nodes : Finset String) (log_msg : Log) (trace : List Event)
    (h : log_msg.name ∉ ignore_nodes) :
    LogNode.RecordLogs c
        { log_service_ := none, min_log_severity_ := min_log_severity,
          ignore_nodes_ := ignore_nodes } log_msg trace =
      { value := ()
        node := { log_service_ := none, min_log_severity_ := min_log_severity,
                  ignore_nodes_ := ignore_nodes }
        trace := trace ++ [Event.awsLogError "RecordLogs"
          "Cannot publish CloudWatch logs with NULL Aws::CloudWatchLogs::LogService instance."] } := by
  simp [LogNode.RecordLogs, count, h]

/-- C3 at a severity below the threshold (`0 < 2`) and at one above it (`50`): the error is
logged in both cases. -/
theorem recordLogs_without_service_logs_error_witness :
    (sampleLog "a" 0).name ∉ ({"noisy_node"} : Finset String) ∧
    LogNode.RecordLogs rclLevels (newLogNode 2 {"noisy_node"}) (sampleLog "a" 0) [] =
      { value := ()
        node := newLogNode 2 {"noisy_node"}
        trace := [Event.awsLogError "RecordLogs"
          "Cannot publish CloudWatch logs with NULL Aws::CloudWatchLogs::LogService instance."] } ∧
    LogNode.RecordLogs rclLevels (newLogNode 2 {"noisy_node"}) (sampleLog "a" 50) [] =
      { value := ()
        node := newLogNode 2 {"noisy_node"}
        trace := [Event.awsLogError "RecordLogs"
          "Cannot publish CloudWatch logs with NULL Aws::CloudWatchLogs::LogService instance."] } :=
  ⟨by decide,
   recordLogs_without_service_logs_error rclLevels 2 {"noisy_node"} (sampleLog "a" 0) []
     (by decide),
   recordLogs_without_service_logs_error rclLevels 2 {"noisy_node"} (sampleLog "a" 50) []
     (by decide)⟩

/-! ## Health check, flush and lifecycle -/

/-- C4: `checkIfOnline` always returns `true`. Without a service the response is
`(false, "The LogService is not initialized")` and the trace is unchanged, so
`isConnected` is not called; with a service `success` is the answer of `isConnected`,
called once, and the message follows it. The response passed in plays no part. -/
theorem checkIfOnline_response (env : Env) (min_log_severity : Int)
    (ignore_nodes : Finset String) (s : LogService) (response : Response)
    (trace : List Event) :
    LogNode.checkIfOnline env
        { log_service_ := none, min_log_severity_ := min_log_severity,
          ignore_nodes_ := ignore_nodes } response trace =
      { value := (true, { success := false, message := "The LogService is not initialized" })
        node := { log_service_ := none, min_log_severity_ := min_log_severity,
                  ignore_nodes_ := ignore_nodes }
        trace := trace } ∧
    LogNode.checkIfOnline env
        { log_service_ := some s, min_log_severity_ := min_log_severity,
          ignore_nodes_ := ignore_nodes } response trace =
      { value := (true,
          { success := env.isConnected s trace
            message := if env.isConnected s trace = true then "The LogService is connected"
                       else "The LogService is not connected" })
        node := { log_service_ := some s, min_log_severity_ := min_log_severity,
                  ignore_nodes_ := ignore_nodes }
        trace := trace ++ [Event.isConnected s] } :=
  ⟨rfl, rfl⟩

/-- C5: the code at the failing input. `TriggerLogPublisher` on a node without a service,
such as one just constructed, dereferences the null pointer: it faults, and neither logs an
error nor returns. -/
theorem triggerLogPublisher_without_service_faults (min_log_severity : Int)
    (ignore_nodes : Finset String) (trace : List Event) :
    (newLogNode min_log_severity ignore_nodes).log_service_ = none ∧
    (newLogNode min_log_severity ignore_nodes).TriggerLogPublisher trace =
      Except.error Fault.nullDereference :=
  ⟨rfl, rfl⟩

/-- C6: `start` with a service calls the service's `start` once and then `Service::start`
once, whatever the first call answered, and returns the conjunction of the two answers, so
it returns `true` exactly when both are `true`; without a service it calls `Service::start`
once and returns its answer. The node is unchanged. -/
theorem start_calls_both_and_conjoins (env : Env) (min_log_severity : Int)
    (ignore_nodes : Finset String) (s : LogService) (trace : List Event) :
    LogNode.start env
        { log_service_ := some s, min_log_severity_ := min_log_severity,
          ignore_nodes_ := ignore_nodes } trace =
      { value := env.logServiceStart s trace &&
          env.serviceStart (trace ++ [Event.logServiceStart s])
        node := { log_service_ := some s, min_log_severity_ := min_log_severity,
                  ignore_nodes_ := ignore_nodes }
        trace := trace ++ [Event.logServiceStart s, Event.serviceStart] } ∧
    ((LogNode.start env
        { log_service_ := some s, min_log_severity_ := min_log_severity,
          ignore_nodes_ := ignore_nodes } trace).value = true ↔
      env.logServiceStart s trace = true ∧
        env.serviceStart (trace ++ [Event.logServiceStart s]) = true) ∧
    LogNode.start env
        { log_service_ := none, min_log_severity_ := min_log_severity,
          ignore_nodes_ := ignore_nodes } trace =
      { value := env.serviceStart trace
        node := { log_service_ := none, min_log_severity_ := min_log_severity,
                  ignore_nodes_ := ignore_nodes }
        trace := trace ++ [Event.serviceStart] } := by
  refine ⟨?_, ?_, ?_⟩
  · simp [LogNode.start]
  · simp [LogNode.start]
  · simp [LogNode.start]

/-- C7: `shutdown` calls `Service::shutdown` first and, with a service, the service's
`shutdown` second and once, whatever the first call answered; it returns the conjunction of
the two answers, and without a service the answer of `Service::shutdown` alone. The node is
unchanged. -/
theorem shutdown_calls_both_and_conjoins (env : Env) (min_log_severity : Int)
    (ignore_nodes : Finset String) (s : LogService) (trace : List Event) :
    LogNode.shutdown env
        { log_service_ := some s, min_log_severity_ := min_log_severity,
          ignore_nodes_ := ignore_nodes } trace =
      { value := env.serviceShutdown trace &&
          env.logServiceShutdown s (trace ++ [Event.serviceShutdown])
        node := { log_service_ := some s, min_log_severity_ := min_log_severity,
                  ignore_nodes_ := ignore_nodes }
        trace := trace ++ [Event.serviceShutdown, Event.logServiceShutdown s] } ∧
    LogNode.shutdown env
        { log_service_ := none, min_log_severity_ := min_log_severity,
          ignore_nodes_ := ignore_nodes } trace =
      { value := env.serviceShutdown trace
        node := { log_service_ := none, min_log_severity_ := min_log_severity,
                  ignore_nodes_ := ignore_nodes }
        trace := trace ++ [Event.serviceShutdown] } := by
  refine ⟨?_, ?_⟩
  · simp [LogNode.shutdown]
  · simp [LogNode.shutdown]

/-! ## Formatting -/

/-- A label written together with its blank is the label followed by the blank. -/
theorem append_label_blank (ss label rest : String) :
    ss ++ (label ++ " ") ++ rest = ss ++ label ++ " " ++ rest := by
  simp [String.append_assoc]

/-- The line `FormatLogs` returns when the level is none of the five constants. -/
theorem formatLogs_unnamed_level (c : LogLevels) (node : LogNode) (log_msg : Log)
    (trace : List Event) (h : ¬ c.Named log_msg.level) :
    (node.FormatLogs c log_msg trace).1 =
      insertStamp log_msg.stamp ++ " " ++ insertLevel log_msg.level ++ " " ++
        "[node name: " ++ log_msg.name ++ "] " ++ log_msg.msg ++ "\n" := by
  simp only [LogLevels.Named, List.mem_cons, List.mem_singleton, List.not_mem_nil, or_false,
    not_or] at h
  obtain ⟨h1, h2, h3, h4, h5⟩ := h
  simp [LogNode.FormatLogs, h1, h2, h3, h4, h5]

/-- C9: the code at the failing input. For the severity `42`, which is none of the five
constants, `FormatLogs` writes the one character with code `42`, an asterisk, where the
numeral `42` is claimed: the line is `"10 * [node name: a] boom\n"`. -/
theorem formatLogs_level_42_is_a_character (c : LogLevels) (h : ¬ c.Named 42) (node : LogNode)
    (trace : List Event) :
    (node.FormatLogs c (sampleLog "a" 42) trace).1 = "10 * [node name: a] boom\n" ∧
    (node.FormatLogs c (sampleLog "a" 42) trace).1 ≠
      insertStamp (sampleLog "a" 42).stamp ++ " " ++ Nat.repr 42 ++ " " ++
        "[node name: " ++ "a" ++ "] " ++ "boom" ++ "\n" := by
  have hline := formatLogs_unnamed_level c node (sampleLog "a" 42) trace h
  have hvalue : insertStamp (sampleLog "a" 42).stamp ++ " " ++ insertLevel (sampleLog "a" 42).level
      ++ " " ++ "[node name: " ++ (sampleLog "a" 42).name ++ "] " ++ (sampleLog "a" 42).msg ++ "\n"
      = "10 * [node name: a] boom\n" := by decide
  rw [hline, hvalue]
  exact ⟨rfl, by decide⟩

/-- C9 at the constants of `rcl_interfaces`, none of which is `42`. -/
theorem formatLogs_level_42_is_a_character_witness :
    ¬ rclLevels.Named 42 ∧
    (sampleNode.FormatLogs rclLevels (sampleLog "a" 42) []).1 = "10 * [node name: a] boom\n" :=
  ⟨by decide, (formatLogs_level_42_is_a_character rclLevels (by decide) sampleNode []).1⟩

/-! ## End to end -/

/-- What the end-to-end scenario leaves behind, for a record of a source that is not
ignored and a factory that returns the service `s`. -/
theorem constructInitializeRecord_eq {Config SdkOptions CwOptions : Type} (c : LogLevels)
    (min_log_severity : Int) (ignore_nodes : Finset String) (log_group log_stream : String)
    (config : Config) (sdk_options : SdkOptions) (cloudwatch_options : CwOptions)
    (factory : LogServiceFactory Config SdkOptions CwOptions) (s : LogService)
    (hs : factory.CreateLogService log_group log_stream config sdk_options cloudwatch_options
      = some s)
    (log_msg : Log) (hname : log_msg.name ∉ ignore_nodes)
    (hlevel : toInt8 log_msg.level ≥ min_log_severity) :
    constructInitializeRecord c min_log_severity ignore_nodes log_group log_stream config
        sdk_options cloudwatch_options (some factory) log_msg =
      Except.ok
        { value := ()
          node := { log_service_ := some s, min_log_severity_ := min_log_severity,
                    ignore_nodes_ := ignore_nodes }
          trace := [Event.CreateLogService log_group log_stream,
            Event.cout (log_msg.msg ++ "\n"),
            Event.batchData s
              (LogNode.FormatLogs c
                { log_service_ := some s, min_log_severity_ := min_log_severity,
                  ignore_nodes_ := ignore_nodes } log_msg
                [Event.CreateLogService log_group log_stream]).1] } := by
  simp [constructInitializeRecord, LogNode.Initialize, newLogNode, hs, LogNode.RecordLogs,
    count, hname, LogNode.ShouldSendToCloudWatchLogs, hlevel]
  simp [LogNode.FormatLogs]

/-- The line of the record `{"a", 3, (10 s, 0 ns), "boom"}` when `3` is the constant
`ERROR`. -/
theorem formatLogs_error_boom (c : LogLevels) (hE : c.ERROR = 3) (hF : c.FATAL ≠ 3)
    (node : LogNode) (file function : String) (line : Nat) (trace : List Event) :
    (node.FormatLogs c
        { stamp := { sec := 10, nanosec := 0 }, level := 3, name := "a", msg := "boom",
          file := file, function := function, line := line } trace).1 =
      "10 ERROR [node name: a] boom\n" := by
  have ht : insertStamp { sec := 10, nanosec := 0 } = "10" := by decide
  simp [LogNode.FormatLogs, hE, Ne.symm hF, ht]

/-- Insertion of the lines of an appended trace. -/
theorem submittedLines_append (first second : List Event) :
    submittedLines (first ++ second) = submittedLines first ++ submittedLines second := by
  induction first with
  | nil => rfl
  | cons e rest ih => cases e <;> simp [submittedLines, ih]

/-- The `int8_t` value of a level is never above the level. -/
theorem toInt8_le (n : Nat) : toInt8 n ≤ (n : Int) := by
  unfold toInt8
  split <;> omega

/-- The `int8_t` value of a level in `128 .. 255` is the level less `256`. -/
theorem toInt8_of_high (n : Nat) (hlow : 128 ≤ n) (hhigh : n < 256) :
    toInt8 n = (n : Int) - 256 := by
  unfold toInt8
  split <;> omega

/-- C11: `ShouldSendToCloudWatchLogs` answers `true` exactly when its severity argument is
at or above the threshold of the node; hence once it answers `true` for a severity it
answers `true` for every greater one. -/
theorem shouldSendToCloudWatchLogs_iff_ge (node : LogNode) (log_severity_level : Int) :
    (node.ShouldSendToCloudWatchLogs log_severity_level = true ↔
      log_severity_level ≥ node.min_log_severity_) ∧
    ∀ greater : Int, node.ShouldSendToCloudWatchLogs log_severity_level = true →
      log_severity_level < greater → node.ShouldSendToCloudWatchLogs greater = true := by
  constructor
  · simp [LogNode.ShouldSendToCloudWatchLogs]
  · intro greater h hlt
    simp only [LogNode.ShouldSendToCloudWatchLogs, decide_eq_true_eq] at h ⊢
    omega

/-- C11 at the threshold `2`: severity `2` passes, `1` does not, and `3 > 2` passes. -/
theorem shouldSendToCloudWatchLogs_iff_ge_witness :
    sampleNode.ShouldSendToCloudWatchLogs 2 = true ∧
    sampleNode.ShouldSendToCloudWatchLogs 1 = false ∧
    sampleNode.ShouldSendToCloudWatchLogs 3 = true :=
  ⟨by decide, by decide,
   (shouldSendToCloudWatchLogs_iff_ge sampleNode 2).2 3 (by decide) (by decide)⟩

/-- C12: the code at the failing inputs. A record whose level is in the upper half of the
unsigned 8-bit range, on a node that holds a service and does not ignore the source, with a
threshold that is not negative, is at or above the threshold and yet is not forwarded: the
`int8_t` parameter of the severity check receives the level less `256`. -/
theorem recordLogs_drops_upper_half_levels (c : LogLevels) (s : LogService)
    (min_log_severity : Int) (ignore_nodes : Finset String) (log_msg : Log)
    (trace : List Event) (hname : log_msg.name ∉ ignore_nodes)
    (hlow : 128 ≤ log_msg.level) (hhigh : log_msg.level < 256)
    (hmin : 0 ≤ min_log_severity) (hmax : min_log_severity ≤ 127) :
    (log_msg.level : Int) ≥ min_log_severity ∧
    LogNode.RecordLogs c
        { log_service_ := some s, min_log_severity_ := min_log_severity,
          ignore_nodes_ := ignore_nodes } log_msg trace =
      { value := ()
        node := { log_service_ := some s, min_log_severity_ := min_log_severity,
                  ignore_nodes_ := ignore_nodes }
        trace := trace } := by
  have h8 := toInt8_of_high log_msg.level hlow hhigh
  refine ⟨by omega, ?_⟩
  have hlt : ¬ (min_log_severity ≤ toInt8 log_msg.level) := by omega
  simp [LogNode.RecordLogs, count, hname, LogNode.ShouldSendToCloudWatchLogs, hlt]

/-- C12 at the top of the range: level `255` against the threshold `50`. -/
theorem recordLogs_drops_upper_half_levels_witness :
    (sampleLog "a" 255).WellFormed ∧
    ((sampleLog "a" 255).level : Int) ≥ 50 ∧
    LogNode.RecordLogs rclLevels
        { log_service_ := some sampleService, min_log_severity_ := 50,
          ignore_nodes_ := {"noisy_node"} } (sampleLog "a" 255) [] =
      { value := ()
        node := { log_service_ := some sampleService, min_log_severity_ := 50,
                  ignore_nodes_ := {"noisy_node"} }
        trace := [] } :=
  ⟨by decide,
   recordLogs_drops_upper_half_levels rclLevels sampleService 50 {"noisy_node"}
     (sampleLog "a" 255) [] (by decide) (by decide) (by decide) (by decide) (by decide)⟩

/-! ## Flush and the fresh node -/

/-- C13: on a node that holds a service, `TriggerLogPublisher` returns normally after one
call of `publishBatchedData` on that service and no other call, whatever the threshold, the
ignored set and the calls made before; the node is unchanged. -/
theorem triggerLogPublisher_publishes_once (s : LogService) (min_log_severity : Int)
    (ignore_nodes : Finset String) (trace : List Event) :
    LogNode.TriggerLogPublisher
        { log_service_ := some s, min_log_severity_ := min_log_severity,
          ignore_nodes_ := ignore_nodes } trace =
      Except.ok
        { value := ()
          node := { log_service_ := some s, min_log_severity_ := min_log_severity,
                    ignore_nodes_ := ignore_nodes }
          trace := trace ++ [Event.publishBatchedData s] } :=
  rfl

/-- C14: a node as the constructor leaves it holds no service, whatever threshold and
ignored set it was given; `checkIfOnline` on it answers
`(false, "The LogService is not initialized")`, and `RecordLogs` of any record submits no
line. -/
theorem fresh_node_has_no_service (env : Env) (c : LogLevels) (min_log_severity : Int)
    (ignore_nodes : Finset String) (response : Response) (log_msg : Log)
    (trace : List Event) :
    (newLogNode min_log_severity ignore_nodes).log_service_ = none ∧
    ((newLogNode min_log_severity ignore_nodes).checkIfOnline env response trace).value =
      (true, { success := false, message := "The LogService is not initialized" }) ∧
    submittedLines ((newLogNode min_log_severity ignore_nodes).RecordLogs c log_msg trace).trace
      = submittedLines trace := by
  refine ⟨rfl, rfl, ?_⟩
  by_cases h : log_msg.name ∈ ignore_nodes
  · simp [LogNode.RecordLogs, newLogNode, count, h]
  · simp [LogNode.RecordLogs, newLogNode, count, h, submittedLines_append, submittedLines]

/-! ## Determinism of the formatter and the console -/

/-- C15: the line `FormatLogs` returns is a function of the time stamp, the level, the
source name and the message of the record alone: two calls on records that agree in these
four fields return the same string, whatever the two nodes (threshold, ignored set,
service), the two traces of earlier calls and the other fields of the records. -/
theorem formatLogs_depends_on_four_fields (c : LogLevels) (first_node second_node : LogNode)
    (first second : Log) (first_trace second_trace : List Event)
    (hstamp : first.stamp = second.stamp) (hlevel : first.level = second.level)
    (hname : first.name = second.name) (hmsg : first.msg = second.msg) :
    (first_node.FormatLogs c first first_trace).1 =
      (second_node.FormatLogs c second second_trace).1 := by
  simp [LogNode.FormatLogs, hstamp, hlevel, hname, hmsg]

/-- C15 for a second call made after the first, on another node, on a record that differs
in `file`, `function` and `line`. -/
theorem formatLogs_depends_on_four_fields_witness :
    (sampleNode.FormatLogs rclLevels (sampleLog "a" 40) []).1 =
      ((newLogNode 7 ∅).FormatLogs rclLevels
        { stamp := { sec := 10, nanosec := 0 }, level := 40, name := "a", msg := "boom",
          file := "talker.cpp", function := "main", line := 12 }
        (sampleNode.FormatLogs rclLevels (sampleLog "a" 40) []).2).1 :=
  formatLogs_depends_on_four_fields rclLevels sampleNode (newLogNode 7 ∅) (sampleLog "a" 40)
    { stamp := { sec := 10, nanosec := 0 }, level := 40, name := "a", msg := "boom",
      file := "talker.cpp", function := "main", line := 12 } [] _ rfl rfl rfl rfl

/-- What `RecordLogs` does for a record it forwards. -/
theorem recordLogs_forwards (c : LogLevels) (s : LogService) (min_log_severity : Int)
    (ignore_nodes : Finset String) (log_msg : Log) (trace : List Event)
    (hname : log_msg.name ∉ ignore_nodes) (hlevel : toInt8 log_msg.level ≥ min_log_severity) :
    LogNode.RecordLogs c
        { log_service_ := some s, min_log_severity_ := min_log_severity,
          ignore_nodes_ := ignore_nodes } log_msg trace =
      { value := ()
        node := { log_service_ := some s, min_log_severity_ := min_log_severity,
                  ignore_nodes_ := ignore_nodes }
        trace := trace ++ [Event.cout (log_msg.msg ++ "\n"),
          Event.batchData s
            (LogNode.FormatLogs c
              { log_service_ := some s, min_log_severity_ := min_log_severity,
                ignore_nodes_ := ignore_nodes } log_msg trace).1] } := by
  simp [LogNode.RecordLogs, count, hname, LogNode.ShouldSendToCloudWatchLogs, hlevel]
  simp [LogNode.FormatLogs]

/-- C16: when `RecordLogs` forwards a record, that is, hands a line to `batchData`, the
node holds a service, the source is not ignored and the level is at or above the
threshold, and the calls made are exactly two: one write to `std::cout` of the message
followed by a newline, with no time stamp, label or node name, and the one `batchData`
with the formatted line. -/
theorem recordLogs_forwarded_writes_message_to_console (c : LogLevels) (node : LogNode)
    (log_msg : Log) (trace : List Event)
    (hforwarded : submittedLines (node.RecordLogs c log_msg trace).trace ≠
      submittedLines trace) :
    ∃ s : LogService,
      node.log_service_ = some s ∧ log_msg.name ∉ node.ignore_nodes_ ∧
      (log_msg.level : Int) ≥ node.min_log_severity_ ∧
      (node.RecordLogs c log_msg trace).trace =
        trace ++ [Event.cout (log_msg.msg ++ "\n"),
          Event.batchData s (node.FormatLogs c log_msg trace).1] := by
  obtain ⟨service, min_log_severity, ignore_nodes⟩ := node
  by_cases hname : log_msg.name ∈ ignore_nodes
  · exact absurd (by simp [LogNode.RecordLogs, count, hname]) hforwarded
  · cases service with
    | none =>
      exact absurd
        (by simp [LogNode.RecordLogs, count, hname, submittedLines_append, submittedLines])
        hforwarded
    | some s =>
      by_cases hlevel : toInt8 log_msg.level ≥ min_log_severity
      · refine ⟨s, rfl, hname, ?_, ?_⟩
        · have := toInt8_le log_msg.level
          show (log_msg.level : Int) ≥ min_log_severity
          omega
        · rw [recordLogs_forwards c s min_log_severity ignore_nodes log_msg trace hname hlevel]
      · exact absurd
          (by simp [LogNode.RecordLogs, count, hname, LogNode.ShouldSendToCloudWatchLogs,
            hlevel])
          hforwarded

/-- C16 for the record `{"a", 3, (10 s, 0 ns), "boom"}` on the sample node. -/
theorem recordLogs_forwarded_writes_message_to_console_witness :
    submittedLines (sampleNode.RecordLogs specLevels (sampleLog "a" 3) []).trace ≠
      submittedLines [] ∧
    ∃ s : LogService,
      sampleNode.log_service_ = some s ∧ (sampleLog "a" 3).name ∉ sampleNode.ignore_nodes_ ∧
      ((sampleLog "a" 3).level : Int) ≥ sampleNode.min_log_severity_ ∧
      (sampleNode.RecordLogs specLevels (sampleLog "a" 3) []).trace =
        [] ++ [Event.cout ((sampleLog "a" 3).msg ++ "\n"),
          Event.batchData s (sampleNode.FormatLogs specLevels (sampleLog "a" 3) []).1] :=
  ⟨by decide,
   recordLogs_forwarded_writes_message_to_console specLevels sampleNode (sampleLog "a" 3) []
     (by decide)⟩

/-! ## Initialization and what the calls leave unchanged -/

/-- C17: `Initialize` with a factory makes one call of `CreateLogService`, with the group
and stream it was given, and stores what the factory returns in place of whatever pointer
the node held; it calls nothing on the old or the new service and leaves threshold and
ignored set alone. A second `Initialize` therefore replaces what the first stored. -/
theorem initialize_stores_factory_result {Config SdkOptions CwOptions : Type} (env : Env)
    (c : LogLevels) (node : LogNode) (log_group log_stream : String) (config : Config)
    (sdk_options : SdkOptions) (cloudwatch_options : CwOptions)
    (factory : LogServiceFactory Config SdkOptions CwOptions)
    (second_group second_stream : String) (second_config : Config)
    (second_sdk_options : SdkOptions) (second_cloudwatch_options : CwOptions)
    (second_factory : LogServiceFactory Config SdkOptions CwOptions) (trace : List Event) :
    node.Initialize log_group log_stream config sdk_options cloudwatch_options (some factory)
        trace =
      Except.ok
        { value := ()
          node :=
            { log_service_ := factory.CreateLogService log_group log_stream config sdk_options
                cloudwatch_options
              min_log_severity_ := node.min_log_severity_
              ignore_nodes_ := node.ignore_nodes_ }
          trace := trace ++ [Event.CreateLogService log_group log_stream] } ∧
    applyAll env c
        [Operation.Initialize log_group log_stream config sdk_options cloudwatch_options
          (some factory),
         Operation.Initialize second_group second_stream second_config second_sdk_options
          second_cloudwatch_options (some second_factory)] node trace =
      Except.ok
        ({ log_service_ := second_factory.CreateLogService second_group second_stream
              second_config second_sdk_options second_cloudwatch_options
           min_log_severity_ := node.min_log_severity_
           ignore_nodes_ := node.ignore_nodes_ },
         trace ++ [Event.CreateLogService log_group log_stream,
           Event.CreateLogService second_group second_stream]) := by
  constructor
  · rfl
  · simp [applyAll, Operation.apply, LogNode.Initialize]

/-- The node after `checkIfOnline` is the node before. -/
theorem checkIfOnline_node (env : Env) (node : LogNode) (response : Response)
    (trace : List Event) : (node.checkIfOnline env response trace).node = node := by
  unfold LogNode.checkIfOnline
  split <;> rfl

/-- The node after `shutdown` is the node before. -/
theorem shutdown_node (env : Env) (node : LogNode) (trace : List Event) :
    (node.shutdown env trace).node = node := by
  unfold LogNode.shutdown
  split <;> rfl

/-- The node after `RecordLogs` is the node before. -/
theorem recordLogs_node (c : LogLevels) (node : LogNode) (log_msg : Log)
    (trace : List Event) : (node.RecordLogs c log_msg trace).node = node := by
  unfold LogNode.RecordLogs
  split
  · split
    · rfl
    · split <;> rfl
  · rfl

/-- A call other than `Initialize` that returns leaves the node as it was. -/
theorem apply_keeps_node {Config SdkOptions CwOptions : Type} (env : Env)
    (c : LogLevels) (op : Operation Config SdkOptions CwOptions)
    (hop : op.isInitialize = false) (node : LogNode) (trace : List Event)
    (next : LogNode × List Event) (h : op.apply env c node trace = Except.ok next) :
    next.1 = node := by
  cases op with
  | Initialize log_group log_stream config sdk_options cloudwatch_options factory =>
    simp [Operation.isInitialize] at hop
  | checkIfOnline response =>
    simp only [Operation.apply, Except.ok.injEq] at h
    rw [← h]
    exact checkIfOnline_node env node response trace
  | start =>
    simp only [Operation.apply, Except.ok.injEq] at h
    rw [← h]
    rfl
  | shutdown =>
    simp only [Operation.apply, Except.ok.injEq] at h
    rw [← h]
    exact shutdown_node env node trace
  | RecordLogs log_msg =>
    simp only [Operation.apply, Except.ok.injEq] at h
    rw [← h]
    exact recordLogs_node c node log_msg trace
  | TriggerLogPublisher =>
    obtain ⟨service, min_log_severity, ignore_nodes⟩ := node
    cases service with
    | none => simp [Operation.apply, LogNode.TriggerLogPublisher] at h
    | some s =>
      simp only [Operation.apply, LogNode.TriggerLogPublisher, Except.ok.injEq] at h
      rw [← h]

/-- A call other than `Initialize` returns, unless it is `TriggerLogPublisher` on a node
without a service. -/
theorem apply_returns_normally {Config SdkOptions CwOptions : Type} (env : Env)
    (c : LogLevels) (op : Operation Config SdkOptions CwOptions)
    (hop : op.isInitialize = false) (node : LogNode) (trace : List Event)
    (hsafe : op.isTrigger = true → node.log_service_.isSome = true) :
    ∃ next : LogNode × List Event, op.apply env c node trace = Except.ok next := by
  cases op with
  | Initialize log_group log_stream config sdk_options cloudwatch_options factory =>
    simp [Operation.isInitialize] at hop
  | checkIfOnline response => exact ⟨_, rfl⟩
  | start => exact ⟨_, rfl⟩
  | shutdown => exact ⟨_, rfl⟩
  | RecordLogs log_msg => exact ⟨_, rfl⟩
  | TriggerLogPublisher =>
    obtain ⟨service, min_log_severity, ignore_nodes⟩ := node
    cases service with
    | none => simp [Operation.isTrigger] at hsafe
    | some s => exact ⟨_, rfl⟩

/-- A sequence of calls without `Initialize`, in which `TriggerLogPublisher` occurs only if
the node holds a service, returns and leaves the node as it was. -/
theorem applyAll_keeps_node {Config SdkOptions CwOptions : Type} (env : Env)
    (c : LogLevels) (ops : List (Operation Config SdkOptions CwOptions)) (node : LogNode)
    (hops : ∀ op ∈ ops, op.isInitialize = false)
    (hsafe : ∀ op ∈ ops, op.isTrigger = true → node.log_service_.isSome = true) :
    ∀ trace : List Event, ∃ after : List Event,
      applyAll env c ops node trace = Except.ok (node, after) := by
  induction ops with
  | nil => exact fun trace => ⟨trace, rfl⟩
  | cons op rest ih =>
    intro trace
    have hop := hops op (List.mem_cons_self op rest)
    obtain ⟨next, hnext⟩ := apply_returns_normally env c op hop node trace
      (hsafe op (List.mem_cons_self op rest))
    have hnode := apply_keeps_node env c op hop node trace next hnext
    obtain ⟨after, hafter⟩ := ih (fun o ho => hops o (List.mem_cons_of_mem op ho))
      (fun o ho => hsafe o (List.mem_cons_of_mem op ho)) next.2
    refine ⟨after, ?_⟩
    simp only [applyAll, hnext, hnode, hafter]

/-- A guarded sequence of calls returns, with the threshold and the ignored set of the node
as they were. -/
theorem applyAll_guarded {Config SdkOptions CwOptions : Type} (env : Env) (c : LogLevels)
    (ops : List (Operation Config SdkOptions CwOptions)) :
    ∀ (node : LogNode) (trace : List Event), Guarded ops node.log_service_.isSome →
      ∃ next : LogNode × List Event,
        applyAll env c ops node trace = Except.ok next ∧
        next.1.min_log_severity_ = node.min_log_severity_ ∧
        next.1.ignore_nodes_ = node.ignore_nodes_ := by
  induction ops with
  | nil => exact fun node trace _ => ⟨(node, trace), rfl, rfl, rfl⟩
  | cons op rest ih =>
    intro node trace hg
    cases op with
    | Initialize log_group log_stream config sdk_options cloudwatch_options factory =>
      cases factory with
      | none => simp [Guarded] at hg
      | some f =>
        simp only [Guarded] at hg
        obtain ⟨next, hnext, hmin, hignore⟩ := ih
          { log_service_ := f.CreateLogService log_group log_stream config sdk_options
              cloudwatch_options
            min_log_severity_ := node.min_log_severity_
            ignore_nodes_ := node.ignore_nodes_ }
          (trace ++ [Event.CreateLogService log_group log_stream]) hg
        exact ⟨next, by simpa [applyAll, Operation.apply, LogNode.Initialize] using hnext,
          hmin, hignore⟩
    | checkIfOnline response =>
      simp only [Guarded] at hg
      obtain ⟨next, hnext, hmin, hignore⟩ := ih node
        (node.checkIfOnline env response trace).trace hg
      exact ⟨next, by simpa [applyAll, Operation.apply, checkIfOnline_node] using hnext,
        hmin, hignore⟩
    | start =>
      simp only [Guarded] at hg
      obtain ⟨next, hnext, hmin, hignore⟩ := ih node (node.start env trace).trace hg
      exact ⟨next, by simpa [applyAll, Operation.apply, LogNode.start] using hnext,
        hmin, hignore⟩
    | shutdown =>
      simp only [Guarded] at hg
      obtain ⟨next, hnext, hmin, hignore⟩ := ih node (node.shutdown env trace).trace hg
      exact ⟨next, by simpa [applyAll, Operation.apply, shutdown_node] using hnext,
        hmin, hignore⟩
    | RecordLogs log_msg =>
      simp only [Guarded] at hg
      obtain ⟨next, hnext, hmin, hignore⟩ := ih node
        (node.RecordLogs c log_msg trace).trace hg
      exact ⟨next, by simpa [applyAll, Operation.apply, recordLogs_node] using hnext,
        hmin, hignore⟩
    | TriggerLogPublisher =>
      simp only [Guarded] at hg
      obtain ⟨service, min_log_severity, ignore_nodes⟩ := node
      cases service with
      | none => simp at hg
      | some s =>
        obtain ⟨next, hnext, hmin, hignore⟩ := ih
          { log_service_ := some s, min_log_severity_ := min_log_severity,
            ignore_nodes_ := ignore_nodes }
          (trace ++ [Event.publishBatchedData s]) hg.2
        exact ⟨next, by simpa [applyAll, Operation.apply, LogNode.TriggerLogPublisher]
          using hnext, hmin, hignore⟩

/-- The calls a guarded sequence begins with are a guarded sequence. -/
theorem guarded_take {Config SdkOptions CwOptions : Type}
    (ops : List (Operation Config SdkOptions CwOptions)) :
    ∀ (present : Bool) (k : Nat), Guarded ops present → Guarded (ops.take k) present := by
  induction ops with
  | nil => exact fun present k h => by simpa using h
  | cons op rest ih =>
    intro present k hg
    cases k with
    | zero => simp [Guarded]
    | succ k =>
      cases op with
      | Initialize log_group log_stream config sdk_options cloudwatch_options factory =>
        cases factory with
        | none => simp [Guarded] at hg
        | some f =>
          simp only [List.take_succ_cons, Guarded] at hg ⊢
          exact ih _ k hg
      | checkIfOnline response =>
        simp only [List.take_succ_cons, Guarded] at hg ⊢
        exact ih _ k hg
      | start =>
        simp only [List.take_succ_cons, Guarded] at hg ⊢
        exact ih _ k hg
      | shutdown =>
        simp only [List.take_succ_cons, Guarded] at hg ⊢
        exact ih _ k hg
      | RecordLogs log_msg =>
        simp only [List.take_succ_cons, Guarded] at hg ⊢
        exact ih _ k hg
      | TriggerLogPublisher =>
        simp only [List.take_succ_cons, Guarded] at hg ⊢
        exact ⟨hg.1, ih _ k hg.2⟩

/-- C18: after every sequence of calls of `Initialize`, `start`, `shutdown`, `RecordLogs`,
`TriggerLogPublisher` (made while a service is held) and `checkIfOnline` on a node
constructed with threshold `t` and ignored set `I`, and after every initial part of such a
sequence, the calls have returned and the node still has threshold `t` and ignored set
`I`; so the severity check and the test of the source name answer for every record as they
do on the node just constructed. -/
theorem admission_config_is_immutable {Config SdkOptions CwOptions : Type} (env : Env)
    (c : LogLevels) (min_log_severity : Int) (ignore_nodes : Finset String)
    (ops : List (Operation Config SdkOptions CwOptions)) (trace : List Event)
    (hg : Guarded ops false) (k : Nat) :
    ∃ next : LogNode × List Event,
      applyAll env c (ops.take k) (newLogNode min_log_severity ignore_nodes) trace =
        Except.ok next ∧
      next.1.min_log_severity_ = min_log_severity ∧ next.1.ignore_nodes_ = ignore_nodes ∧
      ∀ log_msg : Log,
        next.1.ShouldSendToCloudWatchLogs (toInt8 log_msg.level) =
          (newLogNode min_log_severity ignore_nodes).ShouldSendToCloudWatchLogs
            (toInt8 log_msg.level) ∧
        count next.1.ignore_nodes_ log_msg.name = count ignore_nodes log_msg.name := by
  obtain ⟨next, hnext, hmin, hignore⟩ := applyAll_guarded env c (ops.take k)
    (newLogNode min_log_severity ignore_nodes) trace (guarded_take ops false k hg)
  refine ⟨next, hnext, hmin, hignore, fun log_msg => ⟨?_, ?_⟩⟩
  · simp only [LogNode.ShouldSendToCloudWatchLogs, hmin]
  · rw [hignore]
    rfl

/-- C18 for the sample sequence, in full (`k = 9`), on a node constructed with threshold `2`
and ignored set `{"noisy_node"}`. -/
theorem admission_config_is_immutable_witness :
    Guarded sampleOperations false ∧
    ∃ next : LogNode × List Event,
      applyAll sampleEnv specLevels (sampleOperations.take 9) (newLogNode 2 {"noisy_node"}) []
        = Except.ok next ∧
      next.1.min_log_severity_ = 2 ∧ next.1.ignore_nodes_ = {"noisy_node"} ∧
      ∀ log_msg : Log,
        next.1.ShouldSendToCloudWatchLogs (toInt8 log_msg.level) =
          (newLogNode 2 {"noisy_node"}).ShouldSendToCloudWatchLogs (toInt8 log_msg.level) ∧
        count next.1.ignore_nodes_ log_msg.name = count {"noisy_node"} log_msg.name :=
  ⟨by simp [sampleOperations, Guarded, sampleFactory],
   admission_config_is_immutable sampleEnv specLevels 2 {"noisy_node"} sampleOperations []
     (by simp [sampleOperations, Guarded, sampleFactory]) 9⟩

/-- C19: a call of `start`, `shutdown`, `RecordLogs`, `TriggerLogPublisher` or
`checkIfOnline` that returns leaves the service pointer as it was. A node that holds a
service runs every sequence of these calls to the end and holds the same service
afterwards, and `RecordLogs` after `shutdown` still submits; a node that holds none runs
every such sequence without `TriggerLogPublisher` to the end and holds none afterwards. -/
theorem only_initialize_changes_service {Config SdkOptions CwOptions : Type} (env : Env)
    (c : LogLevels) (node : LogNode) (ops : List (Operation Config SdkOptions CwOptions))
    (trace : List Event) (hops : ∀ op ∈ ops, op.isInitialize = false) :
    (∀ op ∈ ops, ∀ (before : LogNode) (earlier : List Event) (next : LogNode × List Event),
      op.apply env c before earlier = Except.ok next →
        next.1.log_service_ = before.log_service_) ∧
    (node.log_service_.isSome = true →
      ∃ after : List Event, applyAll env c ops node trace = Except.ok (node, after)) ∧
    ((∀ op ∈ ops, op.isTrigger = false) →
      ∃ after : List Event, applyAll env c ops node trace = Except.ok (node, after)) ∧
    (∀ (s : LogService) (min_log_severity : Int) (ignore_nodes : Finset String)
        (log_msg : Log),
      log_msg.name ∉ ignore_nodes → toInt8 log_msg.level ≥ min_log_severity →
        applyAll env c
            ([Operation.shutdown, Operation.RecordLogs log_msg] :
              List (Operation Config SdkOptions CwOptions))
            { log_service_ := some s, min_log_severity_ := min_log_severity,
              ignore_nodes_ := ignore_nodes } trace =
          Except.ok
            ({ log_service_ := some s, min_log_severity_ := min_log_severity,
               ignore_nodes_ := ignore_nodes },
             trace ++ [Event.serviceShutdown, Event.logServiceShutdown s,
               Event.cout (log_msg.msg ++ "\n"),
               Event.batchData s
                 (LogNode.FormatLogs c
                   { log_service_ := some s, min_log_severity_ := min_log_severity,
                     ignore_nodes_ := ignore_nodes } log_msg trace).1])) := by
  refine ⟨?_, ?_, ?_, ?_⟩
  · intro op hop before earlier next h
    rw [apply_keeps_node env c op (hops op hop) before earlier next h]
  · intro hsome
    exact applyAll_keeps_node env c ops node hops (fun _ _ _ => hsome) trace
  · intro hnotrigger
    exact applyAll_keeps_node env c ops node hops
      (fun op hop htrigger => by simp [hnotrigger op hop] at htrigger) trace
  · intro s min_log_severity ignore_nodes log_msg hname hlevel
    simp [applyAll, Operation.apply, LogNode.shutdown,
      recordLogs_forwards c s min_log_severity ignore_nodes log_msg _ hname hlevel]
    simp [LogNode.FormatLogs]

/-- C19 for the sample calls on the sample node, which holds a service. -/
theorem only_initialize_changes_service_witness :
    (∀ op ∈ sampleCalls, op.isInitialize = false) ∧
    sampleNode.log_service_.isSome = true ∧
    ∃ after : List Event,
      applyAll sampleEnv specLevels sampleCalls sampleNode [] = Except.ok (sampleNode, after) :=
  ⟨by simp [sampleCalls, Operation.isInitialize], rfl,
   (only_initialize_changes_service sampleEnv specLevels sampleNode sampleCalls []
     (by simp [sampleCalls, Operation.isInitialize])).2.1 rfl⟩

end CloudWatchLogger
